import Mathlib

/-!
Shallow embedding of the msafuvan/test5 repository: two AWS CDK stacks
(`SplitItUI-cdk` and `GitAuthEngine-cdk`), a thin bin entry point, and one
Jest test file. The repository is declarative infrastructure configuration,
so the embedding captures (1) the TypeScript module/import structure that the
test and bin files depend on, (2) the typed property bags each construct
passes to the underlying SDK constructor, (3) the CloudFormation resource
types the SplitItUI stack synthesizes to, and (4) a statement-level view of
every constructor body and top-level script in the repository.
-/

/-! ## TypeScript module and import model

`lib/SplitItUI-cdk-stack.ts` has a single `export` declaration, the named
class `WebAppStack` (line 10), and no `export default`. The test file
(src/unnamed/part_000, line 3) uses a default import `import cdk_Stack from
'../lib/SplitItUI-cdk-stack'`; the bin script (bin/SplitItUI-cdk.ts, line 3)
uses a named import `import { cdk_Stack } from '../lib/SplitItUI-cdk-stack'`.
-/

/-- The export surface of a TypeScript module. -/
structure TsModule where
  defaultExport : Option String
  namedExports : List String
deriving DecidableEq

/-- The three import forms used in the repository. -/
inductive ImportKind
  | defaultImport
  | namedImport
  | namespaceImport
deriving DecidableEq

/-- One import binding in a TypeScript file. -/
structure ImportDecl where
  binding : String
  kind : ImportKind
  fromModule : String
deriving DecidableEq

/-- ES-module resolution of an import binding against the exporting module: a
default import resolves to the module's default export; a named import
resolves only when the binding name is among the named exports. -/
def resolveImport (m : TsModule) (i : ImportDecl) : Option String :=
  match i.kind with
  | ImportKind.defaultImport => m.defaultExport
  | ImportKind.namedImport =>
      if m.namedExports.contains i.binding then some i.binding else none
  | ImportKind.namespaceImport => some i.binding

/-- Export surface of `lib/SplitItUI-cdk-stack.ts`: only the named class
`WebAppStack` (the `WebAppStackProps` interface is not exported). -/
def splitItUiStackModule : TsModule :=
  { defaultExport := none, namedExports := ["WebAppStack"] }

/-- The test file's stack import (src/unnamed/part_000, line 3): a
default-import form bound to `cdk_Stack`. -/
def testFileStackImport : ImportDecl :=
  { binding := "cdk_Stack", kind := ImportKind.defaultImport
  , fromModule := "../lib/SplitItUI-cdk-stack" }

/-- The bin script's stack import (bin/SplitItUI-cdk.ts, line 3): a
named-import form bound to `cdk_Stack`. -/
def binFileStackImport : ImportDecl :=
  { binding := "cdk_Stack", kind := ImportKind.namedImport
  , fromModule := "../lib/SplitItUI-cdk-stack" }

/-! ## CDK enumerations used by the source files -/

/-- `cdk.RemovalPolicy` members. -/
inductive RemovalPolicy
  | DESTROY
  | RETAIN
  | SNAPSHOT
  | RETAIN_ON_UPDATE_OR_DELETE
deriving DecidableEq

/-- `dynamodb.AttributeType` members. -/
inductive AttributeType
  | STRING
  | NUMBER
  | BINARY
deriving DecidableEq

/-- `logs.RetentionDays` members (the ones relevant here plus neighbours). -/
inductive RetentionDays
  | ONE_DAY
  | ONE_WEEK
  | ONE_MONTH
  | ONE_YEAR
  | INFINITE
deriving DecidableEq

/-- `apigateway.MethodLoggingLevel` members. -/
inductive MethodLoggingLevel
  | OFF
  | ERROR
  | INFO
deriving DecidableEq

/-- `apigateway.AuthorizationType` members. -/
inductive AuthorizationType
  | NONE
  | IAM
  | COGNITO
  | CUSTOM
deriving DecidableEq

/-- `lambda.Runtime` members (the one the source uses plus a neighbour). -/
inductive LambdaRuntime
  | PYTHON_3_9
  | NODEJS_18_X
deriving DecidableEq

/-! ## SplitItUI WebAppStack (lib/SplitItUI-cdk-stack.ts)

The constructor creates an S3 bucket, a CloudFront distribution whose default
behavior's origin is `new cloudfront.S3Origin(webAppS3)`, and a `CfnOutput`
carrying `contentDelivery.distributionDomainName`.
-/

/-- The property bag passed to `new s3.Bucket` plus the construct id and the
local variable the result is bound to. -/
structure BucketDecl where
  var : String
  constructId : String
  bucketName : Option String
  removalPolicy : Option RemovalPolicy
deriving DecidableEq

/-- Origin values usable in a distribution behavior; the source builds
`new cloudfront.S3Origin(webAppS3)`, referencing the bucket variable. -/
inductive Origin
  | s3Origin (bucketVar : String)
deriving DecidableEq

/-- The `defaultBehavior` record of the distribution props. -/
structure BehaviorOptions where
  origin : Origin
deriving DecidableEq

/-- The property bag passed to `new cloudfront.Distribution`. -/
structure DistributionDecl where
  var : String
  constructId : String
  defaultBehavior : BehaviorOptions
deriving DecidableEq

/-- Values a `CfnOutput` can carry; the source outputs
`contentDelivery.distributionDomainName`. -/
inductive OutputValue
  | lit (s : String)
  | distributionDomainName (distVar : String)
deriving DecidableEq

/-- The property bag passed to `new cdk.CfnOutput`. -/
structure CfnOutputDecl where
  constructId : String
  value : OutputValue
deriving DecidableEq

/-- `cdk.StackProps` as used here (the bin passes an empty object whose only
suggested field is `env`, per the comment "add env here"). -/
structure StackProps where
  env : Option String := none
deriving DecidableEq

/-- `WebAppStackProps extends cdk.StackProps` with no fields of its own. -/
structure WebAppStackProps extends StackProps
deriving DecidableEq

/-- Everything the `WebAppStack` constructor declares. -/
structure WebAppStackModel where
  stackId : String
  webAppS3 : BucketDecl
  contentDelivery : DistributionDecl
  websiteURL : CfnOutputDecl
deriving DecidableEq

/-- The `WebAppStack` constructor (lib/SplitItUI-cdk-stack.ts, lines 12-32):
the stack id and props are accepted but no resource property depends on
them; the three declarations carry the literal property bags of the source. -/
def WebAppStack (id : String) (_props : Option WebAppStackProps) : WebAppStackModel :=
  { stackId := id
  , webAppS3 :=
      { var := "webAppS3"
      , constructId := "WebAppS3"
      , bucketName := some "my-webapp-bucket"
      , removalPolicy := some RemovalPolicy.DESTROY }
  , contentDelivery :=
      { var := "contentDelivery"
      , constructId := "ContentDelivery"
      , defaultBehavior := { origin := Origin.s3Origin "webAppS3" } }
  , websiteURL :=
      { constructId := "WebsiteURL"
      , value := OutputValue.distributionDomainName "contentDelivery" } }

/-! ## Synthesized template of the WebAppStack

The CloudFormation resource types produced by the two constructs the stack
declares. Framework-added ancillary resources of S3/CloudFront synthesis
(bucket policy, origin access identity) are omitted; none of them are SQS or
SNS types either, so the queue/topic counts below are those of the full
template. -/

/-- A CloudFormation property value as matched by the assertions library. -/
inductive PropVal
  | str (s : String)
  | nat (n : Nat)
  | bool (b : Bool)
deriving DecidableEq

/-- One resource entry of a synthesized CloudFormation template. -/
structure TemplateResource where
  resType : String
  props : List (String × PropVal)
deriving DecidableEq

/-- Template properties of an S3 bucket declaration. -/
def bucketTemplateProps (b : BucketDecl) : List (String × PropVal) :=
  match b.bucketName with
  | some n => [("BucketName", PropVal.str n)]
  | none => []

/-- Synthesis of the WebAppStack: an `AWS::S3::Bucket` and an
`AWS::CloudFront::Distribution` (the `CfnOutput` is not a resource). -/
def WebAppStackModel.template (s : WebAppStackModel) : List TemplateResource :=
  [ { resType := "AWS::S3::Bucket", props := bucketTemplateProps s.webAppS3 }
  , { resType := "AWS::CloudFront::Distribution", props := [] } ]

/-- `Template.hasResourceProperties` from aws-cdk-lib/assertions: some
resource of the given type carries all the given property entries. -/
def Template.hasResourceProperties (t : List TemplateResource)
    (ty : String) (ps : List (String × PropVal)) : Bool :=
  t.any fun r => r.resType == ty && ps.all fun p => r.props.contains p

/-- `Template.resourceCountIs` from aws-cdk-lib/assertions: the number of
resources of the given type equals `n`. -/
def Template.resourceCountIs (t : List TemplateResource) (ty : String) (n : Nat) : Bool :=
  (t.filter fun r => r.resType == ty).length == n

/-! ## GitAuthEngine construct wrappers (GitAuthEngine-cdk-stack.ts)

Each wrapper class is modelled as a function from its props interface to the
record of property bags it forwards to the underlying SDK constructors.
Construct references held by props (vpc, security groups, the lambda passed
to the API gateway) are modelled as the names of the variables the stack
binds them to.
-/

/-- The `defaultCorsPreflightOptions` record of the RestApi props
(GitAuthEngine-cdk-stack.ts, lines 29-34). -/
structure CorsOptions where
  allowHeaders : List String
  allowMethods : List String
  allowCredentials : Bool
  allowOrigins : List String
deriving DecidableEq

/-- One entry of `methodResponses`. -/
structure MethodResponse where
  statusCode : String
deriving DecidableEq

/-- The `defaultMethodOptions` record (lines 48-58). -/
structure MethodOptions where
  methodResponses : List MethodResponse
  operationName : String
  requestParameters : List (String × Bool)
  authorizationType : AuthorizationType
deriving DecidableEq

/-- The `deployOptions` record (lines 37-42). -/
structure DeployOptions where
  stageName : String
  loggingLevel : MethodLoggingLevel
  dataTraceEnabled : Bool
  metricsEnabled : Bool
deriving DecidableEq

/-- Everything `new apigateway.RestApi` is called with (lines 27-59);
`defaultIntegrationLambda` records which function the
`new apigateway.LambdaIntegration(...)` default integration wraps. -/
structure RestApiDecl where
  constructId : String
  restApiName : String
  defaultCorsPreflightOptions : CorsOptions
  description : String
  endpointExportName : String
  deployOptions : DeployOptions
  cloudWatchRole : Bool
  cloudWatchRoleRemovalPolicy : RemovalPolicy
  defaultIntegrationLambda : String
  failOnWarnings : Bool
  retainDeployments : Bool
  defaultMethodOptions : MethodOptions
deriving DecidableEq

/-- `ApiGatewayConstructProps` (lines 12-18). -/
structure ApiGatewayConstructProps where
  restApiName : String
  apigatewayName : String
  allowedOrigins : List String
  lambdaFunction : String
  description : Option String := none
deriving DecidableEq

/-- The `ApiGatewayConstruct` wrapper (lines 20-61): the property bag it
forwards to `new apigateway.RestApi`, with `description` defaulted to the
empty string via `props.description ?? ''`. -/
def apiGatewayConstruct (props : ApiGatewayConstructProps) : RestApiDecl :=
  { constructId := props.apigatewayName
  , restApiName := props.restApiName
  , defaultCorsPreflightOptions :=
      { allowHeaders := ["Content-Type", "X-Amz-Date", "Authorization", "X-Api-Key"]
      , allowMethods := ["POST"]
      , allowCredentials := true
      , allowOrigins := props.allowedOrigins }
  , description := props.description.getD ""
  , endpointExportName := "ServiceRequestAPI"
  , deployOptions :=
      { stageName := "prod"
      , loggingLevel := MethodLoggingLevel.INFO
      , dataTraceEnabled := true
      , metricsEnabled := true }
  , cloudWatchRole := true
  , cloudWatchRoleRemovalPolicy := RemovalPolicy.DESTROY
  , defaultIntegrationLambda := props.lambdaFunction
  , failOnWarnings := true
  , retainDeployments := false
  , defaultMethodOptions :=
      { methodResponses := [{ statusCode := "200" }]
      , operationName := "ServiceRequest"
      , requestParameters :=
          [ ("method.request.header.Authorization", true)
          , ("method.request.header.Content-Type", true)
          , ("method.request.header.Custom-Header", true)
          , ("method.request.querystring.myParam", true) ]
      , authorizationType := AuthorizationType.NONE } }

/-- An `iam.PolicyStatement` property bag (lines 89-92). -/
structure PolicyStatement where
  actions : List String
  resources : List String
deriving DecidableEq

/-- Environment-variable values passed to the lambda: all four entries in
the source are CDK tokens read off other constructs (lines 229-234). -/
inductive EnvVal
  | lit (s : String)
  | tableNameOf (v : String)
  | userPoolIdOf (v : String)
  | cfnRefOf (v : String)
  | logGroupNameOf (v : String)
deriving DecidableEq

/-- `AuthLambdaConstructProps` (lines 63-70). -/
structure AuthLambdaConstructProps where
  functionName : String
  handler : String
  codePath : String
  vpc : String
  securityGroups : List String
  environment : List (String × EnvVal)
deriving DecidableEq

/-- Everything the `AuthLambdaConstruct` wrapper declares: the property bag
of `new lambda.Function` (lines 79-86) and, after construction, the policy
statements attached via `this.lambdaFunction.addToRolePolicy` (lines 89-92). -/
structure LambdaFunctionDecl where
  constructId : String
  runtime : LambdaRuntime
  handler : String
  codeAssetPath : String
  vpc : String
  securityGroups : List String
  environment : List (String × EnvVal)
  rolePolicyStatements : List PolicyStatement
deriving DecidableEq

/-- The `AuthLambdaConstruct` wrapper (lines 72-94): forwards its props to
`new lambda.Function` and then attaches one fixed wildcard policy statement
to the function's execution role, independent of the props. -/
def authLambdaConstruct (props : AuthLambdaConstructProps) : LambdaFunctionDecl :=
  { constructId := props.functionName
  , runtime := LambdaRuntime.PYTHON_3_9
  , handler := props.handler
  , codeAssetPath := props.codePath
  , vpc := props.vpc
  , securityGroups := props.securityGroups
  , environment := props.environment
  , rolePolicyStatements :=
      [ { actions := ["dynamodb:*", "cognito-idp:*", "elasticache:*", "logs:*"]
        , resources := ["*"] } ] }

/-- A DynamoDB partition key record. -/
structure PartitionKey where
  name : String
  type : AttributeType
deriving DecidableEq

/-- `DynamoDBConstructProps` (lines 96-99). -/
structure DynamoDBConstructProps where
  tableName : String
  partitionKey : PartitionKey
deriving DecidableEq

/-- The property bag passed to `new dynamodb.Table` (lines 108-112). -/
structure TableDecl where
  constructId : String
  tableName : String
  partitionKey : PartitionKey
  removalPolicy : Option RemovalPolicy
deriving DecidableEq

/-- The `DynamoDBConstruct` wrapper (lines 101-114). -/
def dynamoDBConstruct (props : DynamoDBConstructProps) : TableDecl :=
  { constructId := props.tableName
  , tableName := props.tableName
  , partitionKey := props.partitionKey
  , removalPolicy := some RemovalPolicy.DESTROY }

/-- `CognitoConstructProps` (lines 116-119). -/
structure CognitoConstructProps where
  userPoolName : String
  clientName : String
deriving DecidableEq

/-- The property bag passed to `new cognito.UserPool` (lines 129-132). -/
structure UserPoolDecl where
  constructId : String
  userPoolName : String
  selfSignUpEnabled : Bool
deriving DecidableEq

/-- The property bag passed to `new cognito.UserPoolClient` (lines 135-137);
`userPoolVar` records that it references `this.userPool`. -/
structure UserPoolClientDecl where
  constructId : String
  userPoolVar : String
deriving DecidableEq

/-- Everything the `CognitoConstruct` wrapper declares. -/
structure CognitoConstructModel where
  userPool : UserPoolDecl
  userPoolClient : UserPoolClientDecl
deriving DecidableEq

/-- The `CognitoConstruct` wrapper (lines 121-139): two SDK constructor
calls, a user pool and a client bound to it. -/
def cognitoConstruct (props : CognitoConstructProps) : CognitoConstructModel :=
  { userPool :=
      { constructId := props.userPoolName
      , userPoolName := props.userPoolName
      , selfSignUpEnabled := true }
  , userPoolClient :=
      { constructId := props.clientName
      , userPoolVar := "this.userPool" } }

/-- `ElastiCacheConstructProps` (lines 141-145). -/
structure ElastiCacheConstructProps where
  vpc : String
  securityGroup : String
  cacheClusterId : String
deriving DecidableEq

/-- The property bag passed to `new elasticache.CfnCacheCluster`
(lines 154-160); `vpcSecurityGroupIds` holds the referenced security-group
variable (`props.securityGroup.securityGroupId`). -/
structure CacheClusterDecl where
  constructId : String
  vpcSecurityGroupIds : List String
  cacheNodeType : String
  engine : String
  numCacheNodes : Nat
  clusterName : String
deriving DecidableEq

/-- The `ElastiCacheConstruct` wrapper (lines 147-162). -/
def elastiCacheConstruct (props : ElastiCacheConstructProps) : CacheClusterDecl :=
  { constructId := props.cacheClusterId
  , vpcSecurityGroupIds := [props.securityGroup]
  , cacheNodeType := "cache.t2.micro"
  , engine := "redis"
  , numCacheNodes := 1
  , clusterName := props.cacheClusterId }

/-- `CloudWatchConstructProps` (lines 164-166). -/
structure CloudWatchConstructProps where
  logGroupName : String
deriving DecidableEq

/-- The property bag passed to `new logs.LogGroup` (lines 175-179). -/
structure LogGroupDecl where
  constructId : String
  logGroupName : String
  retention : RetentionDays
  removalPolicy : Option RemovalPolicy
deriving DecidableEq

/-- The `CloudWatchConstruct` wrapper (lines 168-181). -/
def cloudWatchConstruct (props : CloudWatchConstructProps) : LogGroupDecl :=
  { constructId := props.logGroupName
  , logGroupName := props.logGroupName
  , retention := RetentionDays.ONE_MONTH
  , removalPolicy := some RemovalPolicy.DESTROY }

/-- The property bag passed to `new ec2.Vpc` (lines 188-191), created
directly in the stack constructor, not via a wrapper class. -/
structure VpcDecl where
  constructId : String
  maxAzs : Nat
  natGateways : Nat
deriving DecidableEq

/-- The property bag passed to `new ec2.SecurityGroup` (lines 193-196),
created directly in the stack constructor, not via a wrapper class. -/
structure SecurityGroupDecl where
  constructId : String
  vpcVar : String
  allowAllOutbound : Bool
deriving DecidableEq

/-- Everything the `MyStack` constructor declares (lines 183-245). -/
structure MyStackModel where
  stackId : String
  vpc : VpcDecl
  securityGroup : SecurityGroupDecl
  dynamoDb : TableDecl
  cognitoUserPool : CognitoConstructModel
  elastiCacheCluster : CacheClusterDecl
  cloudWatchLogGroup : LogGroupDecl
  authLambda : LambdaFunctionDecl
  apiGateway : RestApiDecl
deriving DecidableEq

/-- The `MyStack` constructor (lines 183-245): the VPC and security group
are created inline; every other resource is created through its wrapper with
the literal props of the source. -/
def MyStack (id : String) : MyStackModel :=
  { stackId := id
  , vpc := { constructId := "Vpc", maxAzs := 3, natGateways := 1 }
  , securityGroup :=
      { constructId := "SecurityGroup", vpcVar := "vpc", allowAllOutbound := true }
  , dynamoDb :=
      dynamoDBConstruct
        { tableName := "MyTable"
        , partitionKey := { name := "ID", type := AttributeType.STRING } }
  , cognitoUserPool :=
      cognitoConstruct
        { userPoolName := "MyUserPool", clientName := "MyUserPoolClient" }
  , elastiCacheCluster :=
      elastiCacheConstruct
        { vpc := "vpc", securityGroup := "securityGroup"
        , cacheClusterId := "MyCacheCluster" }
  , cloudWatchLogGroup := cloudWatchConstruct { logGroupName := "MyLogGroup" }
  , authLambda :=
      authLambdaConstruct
        { functionName := "AuthLambdaFunction"
        , handler := "index.handler"
        , codePath := "path/to/your/code"
        , vpc := "vpc"
        , securityGroups := ["securityGroup"]
        , environment :=
            [ ("DYNAMODB_TABLE", EnvVal.tableNameOf "dynamoDb.table")
            , ("USER_POOL_ID", EnvVal.userPoolIdOf "cognitoUserPool.userPool")
            , ("CACHE_CLUSTER_ID", EnvVal.cfnRefOf "elastiCacheCluster.cacheCluster")
            , ("LOG_GROUP_NAME", EnvVal.logGroupNameOf "cloudWatchLogGroup.logGroup") ] }
  , apiGateway :=
      apiGatewayConstruct
        { restApiName := "MyApiGateway"
        , apigatewayName := "MyApiGatewayName"
        , allowedOrigins := ["*"]
        , lambdaFunction := "authLambda.lambdaFunction" } }

/-- The four removal-policy assignments occurring anywhere in the two stack
files, read off the stack models: the S3 bucket, the DynamoDB table, the
CloudWatch log group (each via an optional `removalPolicy` field of its
property bag) and the API gateway's `cloudWatchRoleRemovalPolicy`. No other
property bag in either source file contains a removal-policy key, which is
why no other declaration structure above carries one. -/
def optPolicy (n : String) : Option RemovalPolicy → List (String × RemovalPolicy)
  | some p => [(n, p)]
  | none => []

/-- All explicitly assigned removal policies in the repository, labelled by
the resource they belong to. -/
def allExplicitRemovalPolicies : List (String × RemovalPolicy) :=
  optPolicy "WebAppS3 bucket" (WebAppStack "CdkStack" (some {})).webAppS3.removalPolicy
  ++ optPolicy "MyTable table" (MyStack "MyStack").dynamoDb.removalPolicy
  ++ optPolicy "MyLogGroup log group" (MyStack "MyStack").cloudWatchLogGroup.removalPolicy
  ++ [("ApiGateway CloudWatch role", (MyStack "MyStack").apiGateway.cloudWatchRoleRemovalPolicy)]

/-! ## Statement-level view of the source files

Every constructor body and top-level script in the repository, flattened to
its calls in evaluation order (a constructor call nested inside a property
bag is listed just before the call consuming it). The `tryCatch`,
`throwStmt` and `ifStmt` constructors exist so that the absence of error
handling is a checkable property of faithful bodies, not an artefact of the
statement type; none of them occurs in any body because none occurs in the
source. Nested statement lists need no recursive scan here: every container
constructor (`tryCatch`, `ifStmt`) is itself classified as error handling. -/

/-- One TypeScript statement or call, as used by the repository. -/
inductive Stmt
  | superCall
  | newCall (cls : String)
  | factoryCall (fn : String)
  | methodCall (recv : String) (meth : String)
  | tryCatch (body handler : List Stmt)
  | throwStmt (errorCls : String)
  | ifStmt (cond : String) (thenBranch elseBranch : List Stmt)

/-- Whether a statement is a try/catch, a throw, or a conditional branch. -/
def Stmt.isErrHandling : Stmt → Bool
  | Stmt.tryCatch _ _ => true
  | Stmt.throwStmt _ => true
  | Stmt.ifStmt _ _ _ => true
  | _ => false

/-- Whether a statement is a try/catch. -/
def Stmt.isTryCatch : Stmt → Bool
  | Stmt.tryCatch _ _ => true
  | _ => false

/-- Whether a statement throws. -/
def Stmt.isThrow : Stmt → Bool
  | Stmt.throwStmt _ => true
  | _ => false

/-- Whether a statement is a conditional branch. -/
def Stmt.isIfBranch : Stmt → Bool
  | Stmt.ifStmt _ _ _ => true
  | _ => false

/-- Whether a statement is a method call. -/
def Stmt.isMethodCall : Stmt → Bool
  | Stmt.methodCall _ _ => true
  | _ => false

/-- Whether a body contains a `new` call of the given class. -/
def containsNewCall (cls : String) (b : List Stmt) : Bool :=
  b.any fun s =>
    match s with
    | Stmt.newCall c => c == cls
    | _ => false

/-- Number of `new` calls of any of the given classes in a body. -/
def countNewCalls (clss : List String) (b : List Stmt) : Nat :=
  (b.filter fun s =>
    match s with
    | Stmt.newCall c => clss.contains c
    | _ => false).length

/-- Number of method calls with the given method name in a body. -/
def countMethodCalls (meth : String) (b : List Stmt) : Nat :=
  (b.filter fun s =>
    match s with
    | Stmt.methodCall _ m => m == meth
    | _ => false).length

/-- Index of the first `new` call of the given class in a body. -/
def idxOfNewCall (cls : String) (b : List Stmt) : Nat :=
  b.findIdx fun s =>
    match s with
    | Stmt.newCall c => c == cls
    | _ => false

/-- Whether a wrapper body is exactly `super(...)` followed by a single SDK
constructor call and nothing else. -/
def onlySingleCtorCall (b : List Stmt) : Bool :=
  match b with
  | [Stmt.superCall, Stmt.newCall _] => true
  | _ => false

/-- Body of the `WebAppStack` constructor (lib/SplitItUI-cdk-stack.ts,
lines 13-31): the `S3Origin` is built inside the distribution props. -/
def WebAppStack.body : List Stmt :=
  [ Stmt.superCall
  , Stmt.newCall "s3.Bucket"
  , Stmt.newCall "cloudfront.S3Origin"
  , Stmt.newCall "cloudfront.Distribution"
  , Stmt.newCall "cdk.CfnOutput" ]

/-- Body of the `ApiGatewayConstruct` constructor (lines 23-60): the
`LambdaIntegration` is built inside the RestApi props. -/
def ApiGatewayConstruct.body : List Stmt :=
  [ Stmt.superCall
  , Stmt.newCall "apigateway.LambdaIntegration"
  , Stmt.newCall "apigateway.RestApi" ]

/-- Body of the `AuthLambdaConstruct` constructor (lines 75-93): the asset
factory and the function constructor, then a `PolicyStatement` passed to
`addToRolePolicy` on the created function. -/
def AuthLambdaConstruct.body : List Stmt :=
  [ Stmt.superCall
  , Stmt.factoryCall "lambda.Code.fromAsset"
  , Stmt.newCall "lambda.Function"
  , Stmt.newCall "iam.PolicyStatement"
  , Stmt.methodCall "this.lambdaFunction" "addToRolePolicy" ]

/-- Body of the `DynamoDBConstruct` constructor (lines 104-113). -/
def DynamoDBConstruct.body : List Stmt :=
  [Stmt.superCall, Stmt.newCall "dynamodb.Table"]

/-- Body of the `CognitoConstruct` constructor (lines 125-138). -/
def CognitoConstruct.body : List Stmt :=
  [ Stmt.superCall
  , Stmt.newCall "cognito.UserPool"
  , Stmt.newCall "cognito.UserPoolClient" ]

/-- Body of the `ElastiCacheConstruct` constructor (lines 150-161). -/
def ElastiCacheConstruct.body : List Stmt :=
  [Stmt.superCall, Stmt.newCall "elasticache.CfnCacheCluster"]

/-- Body of the `CloudWatchConstruct` constructor (lines 171-180). -/
def CloudWatchConstruct.body : List Stmt :=
  [Stmt.superCall, Stmt.newCall "logs.LogGroup"]

/-- Body of the `MyStack` constructor (lines 184-244). -/
def MyStack.body : List Stmt :=
  [ Stmt.superCall
  , Stmt.newCall "ec2.Vpc"
  , Stmt.newCall "ec2.SecurityGroup"
  , Stmt.newCall "DynamoDBConstruct"
  , Stmt.newCall "CognitoConstruct"
  , Stmt.newCall "ElastiCacheConstruct"
  , Stmt.newCall "CloudWatchConstruct"
  , Stmt.newCall "AuthLambdaConstruct"
  , Stmt.newCall "ApiGatewayConstruct" ]

/-- Top-level statements of GitAuthEngine-cdk-stack.ts (lines 247-249). -/
def gitAuthTopLevel.body : List Stmt :=
  [ Stmt.newCall "cdk.App"
  , Stmt.newCall "MyStack"
  , Stmt.methodCall "app" "synth" ]

/-- Top-level statements of bin/SplitItUI-cdk.ts (lines 5-9): an app and one
stack instantiation, and no further statement of any kind. -/
def splitItUiBin.body : List Stmt :=
  [Stmt.newCall "cdk.App", Stmt.newCall "cdk_Stack"]

/-- Class names in bin/SplitItUI-cdk.ts that denote a stack: only the
binding `cdk_Stack` brought in by the stack import. -/
def splitItUiBin.stackClasses : List String := ["cdk_Stack"]

/-- Body of the Jest test (src/unnamed/part_000, lines 5-17). -/
def testFile.body : List Stmt :=
  [ Stmt.newCall "cdk.App"
  , Stmt.newCall "cdk_Stack"
  , Stmt.factoryCall "Template.fromStack"
  , Stmt.methodCall "template" "hasResourceProperties"
  , Stmt.methodCall "template" "resourceCountIs" ]

/-- The six wrapper construct classes of the GitAuthEngine stack file, with
their bodies. -/
def gitAuthWrapperBodies : List (String × List Stmt) :=
  [ ("ApiGatewayConstruct", ApiGatewayConstruct.body)
  , ("AuthLambdaConstruct", AuthLambdaConstruct.body)
  , ("DynamoDBConstruct", DynamoDBConstruct.body)
  , ("CognitoConstruct", CognitoConstruct.body)
  , ("ElastiCacheConstruct", ElastiCacheConstruct.body)
  , ("CloudWatchConstruct", CloudWatchConstruct.body) ]

/-- Every constructor body and top-level statement list in the repository. -/
def allRepositoryBodies : List (List Stmt) :=
  [ WebAppStack.body
  , ApiGatewayConstruct.body
  , AuthLambdaConstruct.body
  , DynamoDBConstruct.body
  , CognitoConstruct.body
  , ElastiCacheConstruct.body
  , CloudWatchConstruct.body
  , MyStack.body
  , gitAuthTopLevel.body
  , splitItUiBin.body
  , testFile.body ]

/-! ## Claim theorems -/

/-- C1: the test file imports the SplitItUI stack module's stack class as a
default export named `cdk_Stack`, while that module exports exactly one
stack class, the named export `WebAppStack`; consequently the imported
binding does not resolve to the exported class. -/
theorem c1_test_default_import_unresolved :
    testFileStackImport.binding = "cdk_Stack"
    ∧ testFileStackImport.kind = ImportKind.defaultImport
    ∧ splitItUiStackModule.namedExports = ["WebAppStack"]
    ∧ splitItUiStackModule.defaultExport = none
    ∧ resolveImport splitItUiStackModule testFileStackImport = none :=
  ⟨rfl, rfl, rfl, rfl, rfl⟩

/-- C2: for every synthesis of the SplitItUI web-app stack (any stack id and
props), the template contains no AWS::SQS::Queue and no AWS::SNS::Topic
resource, so neither of the test's two assertions (a queue with
VisibilityTimeout 300, exactly one topic) is satisfied. -/
theorem c2_template_lacks_queue_and_topic (id : String) (props : Option WebAppStackProps) :
    Template.resourceCountIs (WebAppStack id props).template "AWS::SQS::Queue" 0 = true
    ∧ Template.resourceCountIs (WebAppStack id props).template "AWS::SNS::Topic" 0 = true
    ∧ Template.hasResourceProperties (WebAppStack id props).template "AWS::SQS::Queue"
        [("VisibilityTimeout", PropVal.nat 300)] = false
    ∧ Template.resourceCountIs (WebAppStack id props).template "AWS::SNS::Topic" 1 = false :=
  ⟨rfl, rfl, rfl, rfl⟩

/-- C2 witness: the synthesis the test would perform, stack id MyTestStack
and no props. -/
theorem c2_template_lacks_queue_and_topic_witness :
    Template.resourceCountIs (WebAppStack "MyTestStack" none).template "AWS::SQS::Queue" 0 = true
    ∧ Template.resourceCountIs (WebAppStack "MyTestStack" none).template "AWS::SNS::Topic" 0 = true
    ∧ Template.hasResourceProperties (WebAppStack "MyTestStack" none).template "AWS::SQS::Queue"
        [("VisibilityTimeout", PropVal.nat 300)] = false
    ∧ Template.resourceCountIs (WebAppStack "MyTestStack" none).template "AWS::SNS::Topic" 1 = false :=
  c2_template_lacks_queue_and_topic "MyTestStack" none

/-- C3 counterexample: the claim fails on the code at two concrete places.
The VPC (and the security group) is created directly in the `MyStack`
constructor and by no wrapper class, so not every listed resource is wrapped
in a construct class; and `AuthLambdaConstruct` is not a single constructor
call: beyond `new lambda.Function` it builds an `iam.PolicyStatement` and
calls `addToRolePolicy` on the created function. -/
theorem c3_counterexample :
    containsNewCall "ec2.Vpc" MyStack.body = true
    ∧ containsNewCall "ec2.SecurityGroup" MyStack.body = true
    ∧ (gitAuthWrapperBodies.all fun w =>
        !(containsNewCall "ec2.Vpc" w.2 || containsNewCall "ec2.SecurityGroup" w.2)) = true
    ∧ onlySingleCtorCall AuthLambdaConstruct.body = false
    ∧ countMethodCalls "addToRolePolicy" AuthLambdaConstruct.body = 1 := by
  decide

/-- C3 amended: the table, user pool (with its client), cache cluster, log
group, serverless function and API gateway are each wrapped in a small named
construct class forwarding fixed property bags to the underlying SDK
constructors, but the VPC and security group are created directly in the
stack constructor without any wrapper, and three wrappers go beyond a single
SDK constructor call: `CognitoConstruct` calls two constructors,
`ApiGatewayConstruct` additionally builds a `LambdaIntegration`, and
`AuthLambdaConstruct` additionally builds a `PolicyStatement` and calls
`addToRolePolicy` on the function it created. -/
theorem c3_amended_wrappers :
    DynamoDBConstruct.body = [Stmt.superCall, Stmt.newCall "dynamodb.Table"]
    ∧ ElastiCacheConstruct.body
        = [Stmt.superCall, Stmt.newCall "elasticache.CfnCacheCluster"]
    ∧ CloudWatchConstruct.body = [Stmt.superCall, Stmt.newCall "logs.LogGroup"]
    ∧ CognitoConstruct.body
        = [ Stmt.superCall, Stmt.newCall "cognito.UserPool"
          , Stmt.newCall "cognito.UserPoolClient" ]
    ∧ ApiGatewayConstruct.body
        = [ Stmt.superCall, Stmt.newCall "apigateway.LambdaIntegration"
          , Stmt.newCall "apigateway.RestApi" ]
    ∧ AuthLambdaConstruct.body
        = [ Stmt.superCall, Stmt.factoryCall "lambda.Code.fromAsset"
          , Stmt.newCall "lambda.Function", Stmt.newCall "iam.PolicyStatement"
          , Stmt.methodCall "this.lambdaFunction" "addToRolePolicy" ]
    ∧ containsNewCall "ec2.Vpc" MyStack.body = true
    ∧ containsNewCall "ec2.SecurityGroup" MyStack.body = true
    ∧ (gitAuthWrapperBodies.all fun w =>
        !(containsNewCall "ec2.Vpc" w.2 || containsNewCall "ec2.SecurityGroup" w.2)) = true :=
  ⟨rfl, rfl, rfl, rfl, rfl, rfl, by decide, by decide, by decide⟩

/-- C4: evaluation of the bin script as committed: it contains exactly one
stack instantiation statement and no synth call, and its stack import (the
named binding `cdk_Stack`) does not resolve against the stack module, whose
only export is `WebAppStack` — so running the script fails before any stack
is constructed. -/
theorem c4_bin_script_as_committed :
    countNewCalls splitItUiBin.stackClasses splitItUiBin.body = 1
    ∧ countMethodCalls "synth" splitItUiBin.body = 0
    ∧ resolveImport splitItUiStackModule binFileStackImport = none := by
  decide

/-- C5: in the SplitItUI stack the CloudFront distribution's default
behavior uses as its origin exactly the S3 bucket created earlier in the
same constructor body, and the stack outputs that distribution's domain
name. -/
theorem c5_bucket_wired_to_distribution (id : String) (props : Option WebAppStackProps) :
    (WebAppStack id props).contentDelivery.defaultBehavior.origin
        = Origin.s3Origin (WebAppStack id props).webAppS3.var
    ∧ idxOfNewCall "s3.Bucket" WebAppStack.body
        < idxOfNewCall "cloudfront.Distribution" WebAppStack.body
    ∧ (WebAppStack id props).websiteURL.value
        = OutputValue.distributionDomainName (WebAppStack id props).contentDelivery.var :=
  ⟨rfl, by decide, rfl⟩

/-- C5 witness: the instantiation the bin script attempts, stack id
CdkStack with an empty props object. -/
theorem c5_bucket_wired_to_distribution_witness :
    (WebAppStack "CdkStack" (some {})).contentDelivery.defaultBehavior.origin
        = Origin.s3Origin (WebAppStack "CdkStack" (some {})).webAppS3.var
    ∧ idxOfNewCall "s3.Bucket" WebAppStack.body
        < idxOfNewCall "cloudfront.Distribution" WebAppStack.body
    ∧ (WebAppStack "CdkStack" (some {})).websiteURL.value
        = OutputValue.distributionDomainName (WebAppStack "CdkStack" (some {})).contentDelivery.var :=
  c5_bucket_wired_to_distribution "CdkStack" (some {})

/-- C6: the resource property values hard-coded in the stack files are
exactly the listed constants: bucket name, table name and partition key,
user pool name, cache cluster id, node type and engine, log group name and
one-month retention, CORS origins and methods, and stage name. -/
theorem c6_hardcoded_resource_properties :
    (WebAppStack "CdkStack" (some {})).webAppS3.bucketName = some "my-webapp-bucket"
    ∧ (MyStack "MyStack").dynamoDb.tableName = "MyTable"
    ∧ (MyStack "MyStack").dynamoDb.partitionKey
        = { name := "ID", type := AttributeType.STRING }
    ∧ (MyStack "MyStack").cognitoUserPool.userPool.userPoolName = "MyUserPool"
    ∧ (MyStack "MyStack").elastiCacheCluster.clusterName = "MyCacheCluster"
    ∧ (MyStack "MyStack").elastiCacheCluster.cacheNodeType = "cache.t2.micro"
    ∧ (MyStack "MyStack").elastiCacheCluster.engine = "redis"
    ∧ (MyStack "MyStack").cloudWatchLogGroup.logGroupName = "MyLogGroup"
    ∧ (MyStack "MyStack").cloudWatchLogGroup.retention = RetentionDays.ONE_MONTH
    ∧ (MyStack "MyStack").apiGateway.defaultCorsPreflightOptions.allowOrigins = ["*"]
    ∧ (MyStack "MyStack").apiGateway.defaultCorsPreflightOptions.allowMethods = ["POST"]
    ∧ (MyStack "MyStack").apiGateway.deployOptions.stageName = "prod" :=
  ⟨rfl, rfl, rfl, rfl, rfl, rfl, rfl, rfl, rfl, rfl, rfl, rfl⟩

/-- C7: no constructor body or top-level statement list anywhere in the
repository contains a try/catch, a throw, or a conditional branch: every
failure surfaces as the unmodified error of the underlying SDK. -/
theorem c7_no_error_handling_anywhere :
    (allRepositoryBodies.all fun b => b.all fun s =>
      !(s.isTryCatch) && !(s.isThrow) && !(s.isIfBranch)) = true := by
  decide

/-- C8: for every props value, the serverless function wrapper grants the
execution role one policy statement with actions over DynamoDB, Cognito,
ElastiCache and CloudWatch Logs wildcards on all resources, and the function
instantiated by the GitAuthEngine stack carries exactly that statement. -/
theorem c8_wildcard_role_policy (props : AuthLambdaConstructProps) :
    (authLambdaConstruct props).rolePolicyStatements
        = [ { actions := ["dynamodb:*", "cognito-idp:*", "elasticache:*", "logs:*"]
            , resources := ["*"] } ]
    ∧ (MyStack "MyStack").authLambda.rolePolicyStatements
        = [ { actions := ["dynamodb:*", "cognito-idp:*", "elasticache:*", "logs:*"]
            , resources := ["*"] } ] :=
  ⟨rfl, rfl⟩

/-- C8 witness: the props the stack passes to the wrapper. -/
theorem c8_wildcard_role_policy_witness :
    (authLambdaConstruct
      { functionName := "AuthLambdaFunction"
      , handler := "index.handler"
      , codePath := "path/to/your/code"
      , vpc := "vpc"
      , securityGroups := ["securityGroup"]
      , environment := [] }).rolePolicyStatements
        = [ { actions := ["dynamodb:*", "cognito-idp:*", "elasticache:*", "logs:*"]
            , resources := ["*"] } ]
    ∧ (MyStack "MyStack").authLambda.rolePolicyStatements
        = [ { actions := ["dynamodb:*", "cognito-idp:*", "elasticache:*", "logs:*"]
            , resources := ["*"] } ] :=
  c8_wildcard_role_policy
    { functionName := "AuthLambdaFunction"
    , handler := "index.handler"
    , codePath := "path/to/your/code"
    , vpc := "vpc"
    , securityGroups := ["securityGroup"]
    , environment := [] }

/-- C9: the API gateway wrapper always sets allowCredentials to true in its
CORS preflight options and passes the caller's allowed origins through, and
the GitAuthEngine stack instantiates it with allowed origins consisting of
the single wildcard, so the synthesized API permits credentialed
cross-origin requests from every origin. -/
theorem c9_cors_credentials_all_origins (props : ApiGatewayConstructProps) :
    (apiGatewayConstruct props).defaultCorsPreflightOptions.allowCredentials = true
    ∧ (apiGatewayConstruct props).defaultCorsPreflightOptions.allowOrigins
        = props.allowedOrigins
    ∧ (MyStack "MyStack").apiGateway.defaultCorsPreflightOptions.allowCredentials = true
    ∧ (MyStack "MyStack").apiGateway.defaultCorsPreflightOptions.allowOrigins = ["*"] :=
  ⟨rfl, rfl, rfl, rfl⟩

/-- C9 witness: the props the stack passes to the wrapper. -/
theorem c9_cors_credentials_all_origins_witness :
    (apiGatewayConstruct
      { restApiName := "MyApiGateway"
      , apigatewayName := "MyApiGatewayName"
      , allowedOrigins := ["*"]
      , lambdaFunction := "authLambda.lambdaFunction" }).defaultCorsPreflightOptions.allowCredentials = true
    ∧ (apiGatewayConstruct
      { restApiName := "MyApiGateway"
      , apigatewayName := "MyApiGatewayName"
      , allowedOrigins := ["*"]
      , lambdaFunction := "authLambda.lambdaFunction" }).defaultCorsPreflightOptions.allowOrigins
        = ({ restApiName := "MyApiGateway"
           , apigatewayName := "MyApiGatewayName"
           , allowedOrigins := ["*"]
           , lambdaFunction := "authLambda.lambdaFunction" } : ApiGatewayConstructProps).allowedOrigins
    ∧ (MyStack "MyStack").apiGateway.defaultCorsPreflightOptions.allowCredentials = true
    ∧ (MyStack "MyStack").apiGateway.defaultCorsPreflightOptions.allowOrigins = ["*"] :=
  c9_cors_credentials_all_origins
    { restApiName := "MyApiGateway"
    , apigatewayName := "MyApiGatewayName"
    , allowedOrigins := ["*"]
    , lambdaFunction := "authLambda.lambdaFunction" }

/-- C10: the removal-policy assignments occurring in the repository are
exactly those of the S3 bucket, the DynamoDB table, the CloudWatch log group
and the API gateway's CloudWatch role, each of them DESTROY; no resource is
ever marked RETAIN. -/
theorem c10_removal_policies_all_destroy :
    allExplicitRemovalPolicies
        = [ ("WebAppS3 bucket", RemovalPolicy.DESTROY)
          , ("MyTable table", RemovalPolicy.DESTROY)
          , ("MyLogGroup log group", RemovalPolicy.DESTROY)
          , ("ApiGateway CloudWatch role", RemovalPolicy.DESTROY) ]
    ∧ (allExplicitRemovalPolicies.all fun x => x.2 == RemovalPolicy.DESTROY) = true
    ∧ (allExplicitRemovalPolicies.map Prod.snd).contains RemovalPolicy.RETAIN = false :=
  ⟨rfl, by decide, by decide⟩
